import Mathlib

/-!
Verification development for the `notify.gc` extension module: a shallow
embedding of the garbage-collection protector registry (FastGCProtector,
RaisingGCProtector, DebugGCProtector and the swappable default slot) and
proofs of the documented behavioural properties.

Modelling conventions:
* A Python object reference is `Obj := Option Nat`: `none` models `Py_None`,
  `some h` models a non-None object whose memory address is identified by `h`.
  Distinct live objects have distinct addresses, and `Py_None` is itself a
  live object distinct from every protected object; `objId` is the
  `PyLong_FromVoidPtr` identity, injective with `objId none` distinct from
  every `objId (some h)`.
* `protected_objects_dict` (a `PyDict` keyed by object ids, with Python int
  values) is an association list with dict operations mirroring
  `PyDict_GetItem`, `PyDict_SetItem`, `PyDict_DelItem` and `PyDict_Size`.
* The C functions mutate `self` in place; here each operation returns the
  updated state together with its result.  A path of the C code that writes
  no field of `self` returns the input state unchanged.
* Raised Python exceptions are `Except.error` values carrying the formatted
  message; `PyErr_Print` in `DebugGCProtector_unprotect` is modelled by a
  Boolean flag recording that the diagnostic was emitted.
-/

/-- A Python object reference: `none` is `Py_None`, `some h` a non-None
object at address `h`. -/
abbrev Obj := Option Nat

/-- `PyLong_FromVoidPtr`: the address used as dictionary key.  `Py_None`
has an address of its own (`0`), distinct from the address of every
non-None object (`h + 1`). -/
def objId : Obj → Nat
  | none => 0
  | some h => h + 1

/-- `PyDict_GetItem` on an association list. -/
def dictGet (d : List (Nat × Int)) (k : Nat) : Option Int :=
  match d with
  | [] => none
  | p :: rest => if p.1 = k then some p.2 else dictGet rest k

/-- `PyDict_SetItem`: replace the value stored at an existing key, else
append the new entry (CPython dicts keep insertion order). -/
def dictSet (d : List (Nat × Int)) (k : Nat) (v : Int) : List (Nat × Int) :=
  match d with
  | [] => [(k, v)]
  | p :: rest => if p.1 = k then (k, v) :: rest else p :: dictSet rest k v

/-- `PyDict_DelItem`: remove the entry stored at a key. -/
def dictDel (d : List (Nat × Int)) (k : Nat) : List (Nat × Int) :=
  match d with
  | [] => []
  | p :: rest => if p.1 = k then rest else p :: dictDel rest k

/-- `PyDict_Size`: number of keys. -/
def dictSize (d : List (Nat × Int)) : Nat :=
  d.length

/-- Sum of all stored values (the total of the per-object counts). -/
def dictSum (d : List (Nat × Int)) : Int :=
  (d.map Prod.snd).sum

/-- The `FastGCProtector` instance struct: only the aggregate counter. -/
structure FastGCProtector where
  num_active_protections : Int
deriving DecidableEq, Repr

/-- A freshly constructed `FastGCProtector` (allocation zero-fills). -/
def fastFresh : FastGCProtector := ⟨0⟩

/-- `FastGCProtector_protect`: for a non-None object, take a strong
reference and increment the aggregate counter; `Py_None` passes through. -/
def FastGCProtector_protect (self : FastGCProtector) (object : Obj) :
    FastGCProtector × Obj :=
  match object with
  | none => (self, none)
  | some _ => (⟨self.num_active_protections + 1⟩, object)

/-- `FastGCProtector_unprotect`: for a non-None object, decrement the
aggregate counter with no validation whatsoever; `Py_None` passes
through. -/
def FastGCProtector_unprotect (self : FastGCProtector) (object : Obj) :
    FastGCProtector × Obj :=
  match object with
  | none => (self, none)
  | some _ => (⟨self.num_active_protections - 1⟩, object)

/-- The `num_active_protections` getter of `FastGCProtector`. -/
def FastGCProtector_get_num_active_protections (self : FastGCProtector) : Int :=
  self.num_active_protections

/-- The `RaisingGCProtector` instance struct (also used by
`DebugGCProtector`, which adds no fields): the per-object count
dictionary plus the aggregate counter. -/
structure RaisingGCProtector where
  protected_objects_dict : List (Nat × Int)
  num_active_protections : Int
deriving DecidableEq, Repr

/-- A freshly initialised `RaisingGCProtector`: empty dictionary, zero
counter. -/
def raisingFresh : RaisingGCProtector := ⟨[], 0⟩

/-- `RaisingGCProtector_protect`: for a non-None object, store
`old count + 1` (or `1` if the id is absent) under the object id and
increment the aggregate counter; `Py_None` passes through. -/
def RaisingGCProtector_protect (self : RaisingGCProtector) (object : Obj) :
    RaisingGCProtector × Obj :=
  match object with
  | none => (self, none)
  | some _ =>
    let id := objId object
    let num_protections_new : Int :=
      match dictGet self.protected_objects_dict id with
      | some num_protections => num_protections + 1
      | none => 1
    (⟨dictSet self.protected_objects_dict id num_protections_new,
      self.num_active_protections + 1⟩, object)

/-- The `strrchr (tp_name, c)` computation of the C error path
(with c the dot character): the part of the type name after the last
dot, or the whole name when it has no dot. -/
def typeNameTail (tp_name : String) : String :=
  ⟨(tp_name.toList.reverse.takeWhile (fun c => c ≠ '.')).reverse⟩

/-- `tp_name` of `RaisingGCProtector_Type`. -/
def raisingGCProtectorTpName : String := "notify.gc.RaisingGCProtector"

/-- `tp_name` of `DebugGCProtector_Type` (the C source registers it under
this name, with the stray `_Type` suffix). -/
def debugGCProtectorTpName : String := "notify.gc.DebugGCProtector_Type"

/-- `RaisingGCProtector_unprotect`, parametrised by the `tp_name` of the
concrete type of `self`.  For a non-None object whose id is present:
store `count - 1` (deleting the key when that reaches zero) and decrement
the aggregate counter, returning the object.  For an absent id: raise
`UnprotectionError` with the message naming the concrete type, touching
no field of `self`.  `Py_None` passes through. -/
def RaisingGCProtector_unprotect (tp_name : String) (self : RaisingGCProtector)
    (object : Obj) : RaisingGCProtector × Except String Obj :=
  match object with
  | none => (self, .ok none)
  | some _ =>
    let id := objId object
    match dictGet self.protected_objects_dict id with
    | some num_protections =>
      let num_protections_new := num_protections - 1
      let dict :=
        if num_protections_new ≠ 0 then
          dictSet self.protected_objects_dict id num_protections_new
        else
          dictDel self.protected_objects_dict id
      (⟨dict, self.num_active_protections - 1⟩, .ok object)
    | none =>
      (self, .error ("object is not protected by this " ++ typeNameTail tp_name))

/-- `RaisingGCProtector_get_num_object_protections`: the id is computed
for any argument (including `Py_None`); an absent id yields `0`. -/
def RaisingGCProtector_get_num_object_protections (self : RaisingGCProtector)
    (object : Obj) : Int :=
  match dictGet self.protected_objects_dict (objId object) with
  | some num_protections => num_protections
  | none => 0

/-- The `num_protected_objects` getter: `PyDict_Size` of the table. -/
def RaisingGCProtector_get_num_protected_objects (self : RaisingGCProtector) : Int :=
  (dictSize self.protected_objects_dict : Int)

/-- The `num_active_protections` getter of `RaisingGCProtector`. -/
def RaisingGCProtector_get_num_active_protections (self : RaisingGCProtector) : Int :=
  self.num_active_protections

/-- `DebugGCProtector_unprotect`: delegate to the accounting unprotect;
on failure print the pending exception (the Boolean records that the
diagnostic was emitted), clear it, and return the object anyway. -/
def DebugGCProtector_unprotect (self : RaisingGCProtector) (object : Obj) :
    RaisingGCProtector × Obj × Bool :=
  match RaisingGCProtector_unprotect debugGCProtectorTpName self object with
  | (s, .ok result) => (s, result, false)
  | (s, .error _) => (s, object, true)

/-- `n` successive calls of `RaisingGCProtector_protect` on one object. -/
def protectN (self : RaisingGCProtector) (object : Obj) : Nat → RaisingGCProtector
  | 0 => self
  | n + 1 => protectN (RaisingGCProtector_protect self object).1 object n

/-- `n` successive calls of `RaisingGCProtector_unprotect` on one object,
checked to all succeed and to each return that very object; `none` if any
call deviates. -/
def unprotectRun (tp_name : String) (self : RaisingGCProtector) (object : Obj) :
    Nat → Option RaisingGCProtector
  | 0 => some self
  | n + 1 =>
    match RaisingGCProtector_unprotect tp_name self object with
    | (s, .ok result) =>
      if result = object then unprotectRun tp_name s object n else none
    | (_, .error _) => none

/-- `n` successive calls of `DebugGCProtector_unprotect` on one object,
checked to each return that very object with no diagnostic emitted. -/
def debugUnprotectRun (self : RaisingGCProtector) (object : Obj) :
    Nat → Option RaisingGCProtector
  | 0 => some self
  | n + 1 =>
    match DebugGCProtector_unprotect self object with
    | (s, result, diagnostic) =>
      if result = object ∧ diagnostic = false then debugUnprotectRun s object n
      else none

/-- The state carried by one protector instance, by concrete type.  A
plain `AbstractGCProtector` instance carries no state and, in particular,
has no `num_active_protections` attribute. -/
inductive ProtectorData where
  | fast : FastGCProtector → ProtectorData
  | raising : RaisingGCProtector → ProtectorData
  | debug : RaisingGCProtector → ProtectorData
  | abstract : ProtectorData
deriving DecidableEq, Repr

/-- A protector instance: its object identity (pointer) plus its state.
Only instances of `AbstractGCProtector` subtypes can occupy the default
slot, so the slot is typed with this structure. -/
structure ProtObj where
  instId : Nat
  data : ProtectorData
deriving DecidableEq, Repr

/-- An arbitrary Python value handed to the `default` setter: either a
protector instance, or some other object (carrying its identity and the
`tp_name` used in the error message). -/
inductive PyValue where
  | protector : ProtObj → PyValue
  | other : Nat → String → PyValue
deriving DecidableEq, Repr

/-- Object identity of a setter argument (pointer comparison source). -/
def pyValueInstId : PyValue → Nat
  | .protector p => p.instId
  | .other i _ => i

/-- `PyObject_GetAttrString (current_protector, "num_active_protections")`:
every concrete protector exposes the getter; a plain
`AbstractGCProtector` instance has no such attribute. -/
def getNumActiveProtectionsAttr : ProtectorData → Option Int
  | .fast s => some s.num_active_protections
  | .raising s => some s.num_active_protections
  | .debug s => some s.num_active_protections
  | .abstract => none

/-- The two `ValueError` families raised by `GCProtectorMeta_set_default`:
the busy guard (carrying the offending count) and the instance check
(carrying the `tp_name` of the rejected value). -/
inductive SetDefaultError where
  | protectorBusy : Int → SetDefaultError
  | invalidProtector : String → SetDefaultError
deriving DecidableEq, Repr

/-- `GCProtectorMeta_set_default`: given the protector currently in the
default slot and the value being assigned, return the new slot contents
and the outcome.  A value identical to the current occupant succeeds at
once.  Otherwise a non-protector value is rejected; a protector value is
installed unless the current occupant reports a truthy
`num_active_protections` (a missing attribute counts as not busy). -/
def GCProtectorMeta_set_default (current : ProtObj) (value : PyValue) :
    ProtObj × Except SetDefaultError Unit :=
  if pyValueInstId value = current.instId then (current, .ok ())
  else
    match value with
    | .protector v =>
      match getNumActiveProtectionsAttr current.data with
      | some n =>
        if n = 0 then (v, .ok ()) else (current, .error (.protectorBusy n))
      | none => (v, .ok ())
    | .other _ tp_name => (current, .error (.invalidProtector tp_name))

/-- The accounting-protector states reachable from a fresh instance by
`protect` and `unprotect` calls (the unprotect constructor also covers
`DebugGCProtector_unprotect`, which delegates to the same function and
keeps the state it returns). -/
inductive Reachable : RaisingGCProtector → Prop where
  | fresh : Reachable raisingFresh
  | protect (s : RaisingGCProtector) (o : Obj) :
      Reachable s → Reachable (RaisingGCProtector_protect s o).1
  | unprotect (tp_name : String) (s : RaisingGCProtector) (o : Obj) :
      Reachable s → Reachable (RaisingGCProtector_unprotect tp_name s o).1

/-- The accounting invariant: every stored count is at least one, the
aggregate counter is the sum of the stored counts, and every key is the
id of a non-None object. -/
def accountingInv (s : RaisingGCProtector) : Prop :=
  (∀ p ∈ s.protected_objects_dict, 1 ≤ p.2) ∧
    s.num_active_protections = dictSum s.protected_objects_dict ∧
    ∀ p ∈ s.protected_objects_dict, p.1 ≠ objId none

theorem dictGet_mem {d : List (Nat × Int)} {k : Nat} {m : Int}
    (h : dictGet d k = some m) : (k, m) ∈ d := by
  induction d with
  | nil => simp [dictGet] at h
  | cons p rest ih =>
    obtain ⟨a, b⟩ := p
    rw [dictGet] at h
    by_cases hk : a = k
    · simp only [hk] at h ⊢
      simp at h
      simp [h]
    · simp only [hk, if_false] at h
      simp at h ⊢
      right
      exact ih h

theorem mem_dictSet {d : List (Nat × Int)} {k : Nat} {v : Int} {p : Nat × Int}
    (h : p ∈ dictSet d k v) : p = (k, v) ∨ p ∈ d := by
  induction d with
  | nil => simp [dictSet] at h; simp [h]
  | cons q rest ih =>
    rw [dictSet] at h
    by_cases hk : q.1 = k
    · simp only [hk, if_true] at h
      simp at h
      rcases h with h | h
      · left; simp [h]
      · right; simp [h]
    · simp only [hk, if_false] at h
      simp at h
      rcases h with h | h
      · right; simp [h]
      · rcases ih h with h | h
        · left; exact h
        · right; simp [h]

theorem mem_dictDel {d : List (Nat × Int)} {k : Nat} {p : Nat × Int}
    (h : p ∈ dictDel d k) : p ∈ d := by
  induction d with
  | nil => simp [dictDel] at h
  | cons q rest ih =>
    rw [dictDel] at h
    by_cases hk : q.1 = k
    · simp only [hk, if_true] at h
      simp [h]
    · simp only [hk, if_false] at h
      simp at h
      rcases h with h | h
      · simp [h]
      · simp [ih h]

theorem dictSum_set (d : List (Nat × Int)) (k : Nat) (v : Int) :
    dictSum (dictSet d k v) = dictSum d + v - ((dictGet d k).getD 0) := by
  induction d with
  | nil => simp [dictSet, dictGet, dictSum]
  | cons q rest ih =>
    by_cases hk : q.1 = k
    · simp [dictSet, dictGet, hk, dictSum]
      ring
    · simp [dictSet, dictGet, hk, dictSum] at ih ⊢
      omega

theorem dictSum_del (d : List (Nat × Int)) (k : Nat) :
    dictSum (dictDel d k) = dictSum d - ((dictGet d k).getD 0) := by
  induction d with
  | nil => simp [dictDel, dictGet, dictSum]
  | cons q rest ih =>
    by_cases hk : q.1 = k
    · simp [dictDel, dictGet, hk, dictSum]
    · simp [dictDel, dictGet, hk, dictSum] at ih ⊢
      omega

theorem dictGet_eq_none {d : List (Nat × Int)} {k : Nat}
    (h : ∀ p ∈ d, p.1 ≠ k) : dictGet d k = none := by
  induction d with
  | nil => rfl
  | cons q rest ih =>
    rw [dictGet]
    have hq : q.1 ≠ k := h q (by simp)
    simp [hq]
    exact ih fun p hp => h p (by simp [hp])

theorem protect_eq_of_get_some {s : RaisingGCProtector} {a : Nat} {m : Int}
    (hget : dictGet s.protected_objects_dict (objId (some a)) = some m) :
    RaisingGCProtector_protect s (some a)
      = (⟨dictSet s.protected_objects_dict (objId (some a)) (m + 1),
          s.num_active_protections + 1⟩, some a) := by
  simp [RaisingGCProtector_protect, hget]

theorem protect_eq_of_get_none {s : RaisingGCProtector} {a : Nat}
    (hget : dictGet s.protected_objects_dict (objId (some a)) = none) :
    RaisingGCProtector_protect s (some a)
      = (⟨dictSet s.protected_objects_dict (objId (some a)) 1,
          s.num_active_protections + 1⟩, some a) := by
  simp [RaisingGCProtector_protect, hget]

theorem unprotect_eq_of_get_some {tp_name : String} {s : RaisingGCProtector}
    {a : Nat} {m : Int}
    (hget : dictGet s.protected_objects_dict (objId (some a)) = some m) :
    RaisingGCProtector_unprotect tp_name s (some a)
      = (⟨if m - 1 ≠ 0 then dictSet s.protected_objects_dict (objId (some a)) (m - 1)
          else dictDel s.protected_objects_dict (objId (some a)),
          s.num_active_protections - 1⟩, .ok (some a)) := by
  simp [RaisingGCProtector_unprotect, hget]

theorem unprotect_eq_of_get_none {tp_name : String} {s : RaisingGCProtector} {a : Nat}
    (hget : dictGet s.protected_objects_dict (objId (some a)) = none) :
    RaisingGCProtector_unprotect tp_name s (some a)
      = (s, .error ("object is not protected by this " ++ typeNameTail tp_name)) := by
  simp [RaisingGCProtector_unprotect, hget]

theorem reachable_accountingInv {s : RaisingGCProtector} (h : Reachable s) :
    accountingInv s := by
  induction h with
  | fresh =>
    refine ⟨?_, ?_, ?_⟩ <;> simp [raisingFresh, dictSum]
  | protect s o _ ih =>
    obtain ⟨hpos, hsum, hkey⟩ := ih
    cases o with
    | none => exact ⟨hpos, hsum, hkey⟩
    | some a =>
      cases hget : dictGet s.protected_objects_dict (objId (some a)) with
      | some m =>
        have hm : 1 ≤ m := hpos _ (dictGet_mem hget)
        rw [protect_eq_of_get_some hget]
        refine ⟨?_, ?_, ?_⟩
        · intro p hp
          rcases mem_dictSet hp with hp | hp
          · simp [hp]; omega
          · exact hpos p hp
        · have := dictSum_set s.protected_objects_dict (objId (some a)) (m + 1)
          simp only [hget, Option.getD_some] at this
          simp only [this]
          omega
        · intro p hp
          rcases mem_dictSet hp with hp | hp
          · simp [hp, objId]
          · exact hkey p hp
      | none =>
        rw [protect_eq_of_get_none hget]
        refine ⟨?_, ?_, ?_⟩
        · intro p hp
          rcases mem_dictSet hp with hp | hp
          · simp [hp]
          · exact hpos p hp
        · have := dictSum_set s.protected_objects_dict (objId (some a)) 1
          simp only [hget, Option.getD_none] at this
          simp only [this]
          omega
        · intro p hp
          rcases mem_dictSet hp with hp | hp
          · simp [hp, objId]
          · exact hkey p hp
  | unprotect tp_name s o _ ih =>
    obtain ⟨hpos, hsum, hkey⟩ := ih
    cases o with
    | none => exact ⟨hpos, hsum, hkey⟩
    | some a =>
      cases hget : dictGet s.protected_objects_dict (objId (some a)) with
      | some m =>
        have hm : 1 ≤ m := hpos _ (dictGet_mem hget)
        rw [unprotect_eq_of_get_some hget]
        by_cases hz : m - 1 ≠ 0
        · rw [if_pos hz]
          refine ⟨?_, ?_, ?_⟩
          · intro p hp
            rcases mem_dictSet hp with hp | hp
            · simp [hp]; omega
            · exact hpos p hp
          · have := dictSum_set s.protected_objects_dict (objId (some a)) (m - 1)
            simp only [hget, Option.getD_some] at this
            simp only [this]
            omega
          · intro p hp
            rcases mem_dictSet hp with hp | hp
            · simp [hp, objId]
            · exact hkey p hp
        · rw [if_neg hz]
          refine ⟨?_, ?_, ?_⟩
          · intro p hp
            exact hpos p (mem_dictDel hp)
          · have := dictSum_del s.protected_objects_dict (objId (some a))
            simp only [hget, Option.getD_some] at this
            simp only [this]
            omega
          · intro p hp
            exact hkey p (mem_dictDel hp)
      | none =>
        rw [unprotect_eq_of_get_none hget]
        exact ⟨hpos, hsum, hkey⟩

theorem protectN_loaded (h : Nat) :
    ∀ (n : Nat) (k c : Int),
      protectN ⟨[(h + 1, k)], c⟩ (some h) n = ⟨[(h + 1, k + n)], c + n⟩ := by
  intro n
  induction n with
  | zero => intro k c; simp [protectN]
  | succ n ih =>
    intro k c
    have hstep : (RaisingGCProtector_protect ⟨[(h + 1, k)], c⟩ (some h)).1
        = ⟨[(h + 1, k + 1)], c + 1⟩ := by
      simp [RaisingGCProtector_protect, objId, dictGet, dictSet]
    rw [protectN, hstep, ih]
    have e1 : k + 1 + (n : Int) = k + ((n + 1 : Nat) : Int) := by push_cast; ring
    have e2 : c + 1 + (n : Int) = c + ((n + 1 : Nat) : Int) := by push_cast; ring
    rw [e1, e2]

theorem protectN_fresh_succ (h n : Nat) :
    protectN raisingFresh (some h) (n + 1)
      = ⟨[(h + 1, (n : Int) + 1)], (n : Int) + 1⟩ := by
  have hstep : (RaisingGCProtector_protect raisingFresh (some h)).1
      = ⟨[(h + 1, 1)], 1⟩ := by
    simp [RaisingGCProtector_protect, raisingFresh, objId, dictGet, dictSet]
  rw [protectN, hstep, protectN_loaded]
  have e : 1 + (n : Int) = (n : Int) + 1 := by ring
  rw [e]

theorem unprotectRun_loaded (tp_name : String) (h : Nat) :
    ∀ (n : Nat) (c : Int),
      unprotectRun tp_name ⟨[(h + 1, (n : Int) + 1)], c⟩ (some h) (n + 1)
        = some ⟨[], c - ((n : Int) + 1)⟩ := by
  intro n
  induction n with
  | zero =>
    intro c
    have hget : dictGet [(h + 1, ((0 : Nat) : Int) + 1)] (objId (some h))
        = some (((0 : Nat) : Int) + 1) := by
      simp [dictGet, objId]
    have hstep := @unprotect_eq_of_get_some tp_name
      ⟨[(h + 1, ((0 : Nat) : Int) + 1)], c⟩ h (((0 : Nat) : Int) + 1) hget
    rw [unprotectRun, hstep]
    norm_num [dictDel, objId, unprotectRun]
  | succ n ih =>
    intro c
    have hget : dictGet [(h + 1, ((n + 1 : Nat) : Int) + 1)] (objId (some h))
        = some (((n + 1 : Nat) : Int) + 1) := by
      simp [dictGet, objId]
    have hstep := @unprotect_eq_of_get_some tp_name
      ⟨[(h + 1, ((n + 1 : Nat) : Int) + 1)], c⟩ h (((n + 1 : Nat) : Int) + 1) hget
    rw [unprotectRun, hstep]
    have hcond : ((n + 1 : Nat) : Int) + 1 - 1 ≠ 0 := by
      push_cast
      omega
    rw [if_pos hcond]
    have hsetEq : dictSet [(h + 1, ((n + 1 : Nat) : Int) + 1)] (objId (some h))
        (((n + 1 : Nat) : Int) + 1 - 1) = [(h + 1, (n : Int) + 1)] := by
      simp [dictSet, objId]
    simp only [hsetEq, if_pos rfl]
    rw [ih (c - 1)]
    have e : c - 1 - ((n : Int) + 1) = c - (((n + 1 : Nat) : Int) + 1) := by
      push_cast
      ring
    rw [e]
    simp

theorem unprotectRun_succ_ok {tp_name : String} {s s2 : RaisingGCProtector}
    {o result : Obj} {n : Nat}
    (hu : RaisingGCProtector_unprotect tp_name s o = (s2, .ok result)) :
    unprotectRun tp_name s o (n + 1)
      = if result = o then unprotectRun tp_name s2 o n else none := by
  rw [unprotectRun, hu]

theorem unprotectRun_succ_err {tp_name : String} {s s2 : RaisingGCProtector}
    {o : Obj} {e : String} {n : Nat}
    (hu : RaisingGCProtector_unprotect tp_name s o = (s2, .error e)) :
    unprotectRun tp_name s o (n + 1) = none := by
  rw [unprotectRun, hu]

theorem debug_unprotect_ok {s s2 : RaisingGCProtector} {o result : Obj}
    (hu : RaisingGCProtector_unprotect debugGCProtectorTpName s o = (s2, .ok result)) :
    DebugGCProtector_unprotect s o = (s2, result, false) := by
  rw [DebugGCProtector_unprotect, hu]

theorem debug_unprotect_err {s s2 : RaisingGCProtector} {o : Obj} {e : String}
    (hu : RaisingGCProtector_unprotect debugGCProtectorTpName s o = (s2, .error e)) :
    DebugGCProtector_unprotect s o = (s2, o, true) := by
  rw [DebugGCProtector_unprotect, hu]

theorem debugUnprotectRun_succ_ok {s s2 : RaisingGCProtector} {o result : Obj} {n : Nat}
    (hu : RaisingGCProtector_unprotect debugGCProtectorTpName s o = (s2, .ok result)) :
    debugUnprotectRun s o (n + 1)
      = if result = o then debugUnprotectRun s2 o n else none := by
  rw [debugUnprotectRun, debug_unprotect_ok hu]
  by_cases hr : result = o <;> simp [hr]

theorem debugUnprotectRun_of_unprotectRun {o : Obj} :
    ∀ (n : Nat) (s sf : RaisingGCProtector),
      unprotectRun debugGCProtectorTpName s o n = some sf →
      debugUnprotectRun s o n = some sf := by
  intro n
  induction n with
  | zero =>
    intro s sf hrun
    simpa [unprotectRun, debugUnprotectRun] using hrun
  | succ n ih =>
    intro s sf hrun
    cases hu : RaisingGCProtector_unprotect debugGCProtectorTpName s o with
    | mk s2 res =>
      cases res with
      | ok result =>
        rw [unprotectRun_succ_ok hu] at hrun
        by_cases hr : result = o
        · rw [if_pos hr] at hrun
          rw [debugUnprotectRun_succ_ok hu, if_pos hr]
          exact ih s2 sf hrun
        · rw [if_neg hr] at hrun
          exact absurd hrun (by simp)
      | error e =>
        rw [unprotectRun_succ_err hu] at hrun
        exact absurd hrun (by simp)

/-- Claim C1: for every non-None object and both accounting protectors
(RaisingGCProtector and DebugGCProtector share the accounting unprotect),
after n protects on a fresh protector, n unprotects all succeed and each
returns the object, the final per-object count is 0, and one further
unprotect takes the UnprotectionError path: the raising variant raises
it, the debug variant detects it and emits the diagnostic. -/
theorem C1_protect_unprotect_roundtrip (h n : Nat) (tp_name : String) :
    unprotectRun tp_name (protectN raisingFresh (some h) n) (some h) n = some ⟨[], 0⟩
    ∧ RaisingGCProtector_get_num_object_protections ⟨[], 0⟩ (some h) = 0
    ∧ RaisingGCProtector_unprotect tp_name ⟨[], 0⟩ (some h)
        = (⟨[], 0⟩, .error ("object is not protected by this " ++ typeNameTail tp_name))
    ∧ debugUnprotectRun (protectN raisingFresh (some h) n) (some h) n = some ⟨[], 0⟩
    ∧ DebugGCProtector_unprotect ⟨[], 0⟩ (some h) = (⟨[], 0⟩, some h, true) := by
  have habsent : dictGet (⟨[], 0⟩ : RaisingGCProtector).protected_objects_dict
      (objId (some h)) = none := rfl
  have hrun : ∀ tn : String,
      unprotectRun tn (protectN raisingFresh (some h) n) (some h) n = some ⟨[], 0⟩ := by
    intro tn
    cases n with
    | zero => rfl
    | succ m =>
      rw [protectN_fresh_succ]
      have := unprotectRun_loaded tn h m ((m : Int) + 1)
      simpa using this
  exact ⟨hrun tp_name, rfl, unprotect_eq_of_get_none habsent,
    debugUnprotectRun_of_unprotectRun n _ _ (hrun debugGCProtectorTpName),
    debug_unprotect_err (unprotect_eq_of_get_none habsent)⟩

/-- Claim C2: after n protects of one object on a fresh accounting
protector, get_num_object_protections returns n for that object and 0
for every object with a different id (in particular for Py_None), and on
every reachable state it returns 0 for Py_None, never failing. -/
theorem C2_num_object_protections (h n : Nat) :
    RaisingGCProtector_get_num_object_protections
        (protectN raisingFresh (some h) n) (some h) = (n : Int)
    ∧ (∀ o2 : Obj, objId o2 ≠ objId (some h) →
        RaisingGCProtector_get_num_object_protections
          (protectN raisingFresh (some h) n) o2 = 0)
    ∧ (∀ s : RaisingGCProtector, Reachable s →
        RaisingGCProtector_get_num_object_protections s none = 0) := by
  refine ⟨?_, ?_, ?_⟩
  · cases n with
    | zero => rfl
    | succ m =>
      rw [protectN_fresh_succ]
      simp [RaisingGCProtector_get_num_object_protections, dictGet, objId]
  · intro o2 hne
    cases n with
    | zero =>
      simp [protectN, raisingFresh, RaisingGCProtector_get_num_object_protections, dictGet]
    | succ m =>
      rw [protectN_fresh_succ]
      have hne2 : ¬ ((h + 1 : Nat) = objId o2) := by
        simp only [objId] at hne
        intro he
        exact hne he.symm
      simp [RaisingGCProtector_get_num_object_protections, dictGet, hne2]
  · intro s hr
    have hkeys := (reachable_accountingInv hr).2.2
    have : dictGet s.protected_objects_dict (objId none) = none :=
      dictGet_eq_none hkeys
    simp [RaisingGCProtector_get_num_object_protections, this]

theorem C2_num_object_protections_witness :
    RaisingGCProtector_get_num_object_protections
        (protectN raisingFresh (some 4) 3) (some 4) = ((3 : Nat) : Int)
    ∧ RaisingGCProtector_get_num_object_protections
        (protectN raisingFresh (some 4) 3) none = 0 :=
  ⟨(C2_num_object_protections 4 3).1,
   (C2_num_object_protections 4 3).2.1 none (by decide)⟩

/-- Claim C3: unprotecting an object with no recorded protections on any
RaisingGCProtector state raises the UnprotectionError whose message names
the concrete protector type, and mutates nothing: the returned state is
the input state. -/
theorem C3_unprotect_unprotected_raises (s : RaisingGCProtector) (h : Nat)
    (tp_name : String)
    (habsent : dictGet s.protected_objects_dict (objId (some h)) = none) :
    RaisingGCProtector_unprotect tp_name s (some h)
        = (s, .error ("object is not protected by this " ++ typeNameTail tp_name))
    ∧ typeNameTail raisingGCProtectorTpName = "RaisingGCProtector" :=
  ⟨unprotect_eq_of_get_none habsent, by decide⟩

theorem C3_unprotect_unprotected_raises_witness :
    dictGet raisingFresh.protected_objects_dict (objId (some 7)) = none
    ∧ RaisingGCProtector_unprotect raisingGCProtectorTpName raisingFresh (some 7)
        = (raisingFresh, .error ("object is not protected by this "
            ++ typeNameTail raisingGCProtectorTpName)) :=
  ⟨rfl, (C3_unprotect_unprotected_raises raisingFresh 7 raisingGCProtectorTpName rfl).1⟩

/-- Claim C4: installing a different protector while the current default
reports a non-zero num_active_protections fails with the busy ValueError
and leaves the slot unchanged; with the count at zero the same assignment
succeeds and the slot then holds the new protector. -/
theorem C4_set_default_busy_guard (current v : ProtObj) (n : Int)
    (hne : v.instId ≠ current.instId)
    (hattr : getNumActiveProtectionsAttr current.data = some n) :
    (n ≠ 0 → GCProtectorMeta_set_default current (.protector v)
        = (current, .error (.protectorBusy n)))
    ∧ (n = 0 → GCProtectorMeta_set_default current (.protector v) = (v, .ok ())) := by
  constructor <;> intro hn <;>
    simp [GCProtectorMeta_set_default, pyValueInstId, hne, hattr, hn]

theorem C4_set_default_busy_guard_witness :
    GCProtectorMeta_set_default ⟨0, .fast ⟨1⟩⟩ (.protector ⟨1, .fast ⟨0⟩⟩)
        = (⟨0, .fast ⟨1⟩⟩, .error (.protectorBusy 1))
    ∧ GCProtectorMeta_set_default ⟨0, .fast ⟨0⟩⟩ (.protector ⟨1, .fast ⟨0⟩⟩)
        = (⟨1, .fast ⟨0⟩⟩, .ok ()) :=
  ⟨(C4_set_default_busy_guard ⟨0, .fast ⟨1⟩⟩ ⟨1, .fast ⟨0⟩⟩ 1
      (by decide) rfl).1 (by decide),
   (C4_set_default_busy_guard ⟨0, .fast ⟨0⟩⟩ ⟨1, .fast ⟨0⟩⟩ 0
      (by decide) rfl).2 rfl⟩

/-- Claim C5: DebugGCProtector unprotect of an object with zero recorded
protections returns the object, lets no error escape, emits the
diagnostic, and leaves the state unmutated. -/
theorem C5_debug_unprotect_swallows (s : RaisingGCProtector) (h : Nat)
    (habsent : dictGet s.protected_objects_dict (objId (some h)) = none) :
    DebugGCProtector_unprotect s (some h) = (s, some h, true) :=
  debug_unprotect_err (unprotect_eq_of_get_none habsent)

theorem C5_debug_unprotect_swallows_witness :
    DebugGCProtector_unprotect raisingFresh (some 0) = (raisingFresh, some 0, true) :=
  C5_debug_unprotect_swallows raisingFresh 0 rfl

/-- Claim C6: protect and unprotect treat Py_None as a pure passthrough
in every variant: the sentinel comes back unchanged and no counter or
table is touched. -/
theorem C6_none_passthrough (f : FastGCProtector) (r : RaisingGCProtector)
    (tp_name : String) :
    FastGCProtector_protect f none = (f, none)
    ∧ FastGCProtector_unprotect f none = (f, none)
    ∧ RaisingGCProtector_protect r none = (r, none)
    ∧ RaisingGCProtector_unprotect tp_name r none = (r, .ok none)
    ∧ DebugGCProtector_unprotect r none = (r, none, false) :=
  ⟨rfl, rfl, rfl, rfl, rfl⟩

/-- Claim C7: on every state reachable from a fresh accounting protector
by protect and unprotect calls, every table entry has count at least 1
and num_active_protections equals the sum of the per-object counts. -/
theorem C7_accounting_invariant (s : RaisingGCProtector) (hr : Reachable s) :
    (∀ p ∈ s.protected_objects_dict, 1 ≤ p.2)
    ∧ s.num_active_protections = dictSum s.protected_objects_dict :=
  ⟨(reachable_accountingInv hr).1, (reachable_accountingInv hr).2.1⟩

theorem C7_accounting_invariant_witness :
    (∀ p ∈ (RaisingGCProtector_protect raisingFresh (some 2)).1.protected_objects_dict,
        1 ≤ p.2)
    ∧ (RaisingGCProtector_protect raisingFresh (some 2)).1.num_active_protections
        = dictSum (RaisingGCProtector_protect raisingFresh (some 2)).1.protected_objects_dict :=
  C7_accounting_invariant _ (Reachable.protect raisingFresh (some 2) Reachable.fresh)

/-- Claim C8: assigning a value that is not an AbstractGCProtector
instance to the default slot fails with the instance-check ValueError and
leaves the current default installed. -/
theorem C8_invalid_protector_rejected (current : ProtObj) (i : Nat) (tp_name : String)
    (hne : i ≠ current.instId) :
    GCProtectorMeta_set_default current (.other i tp_name)
      = (current, .error (.invalidProtector tp_name)) := by
  simp [GCProtectorMeta_set_default, pyValueInstId, hne]

theorem C8_invalid_protector_rejected_witness :
    GCProtectorMeta_set_default ⟨0, .fast ⟨0⟩⟩ (.other 1 "int")
      = (⟨0, .fast ⟨0⟩⟩, .error (.invalidProtector "int")) :=
  C8_invalid_protector_rejected ⟨0, .fast ⟨0⟩⟩ 1 "int" (by decide)

/-- Claim C9: protecting one object five times on a fresh accounting
protector leaves one distinct protected object and five active
protections: the distinct count is the number of table keys, not the sum
of counts. -/
theorem C9_distinct_vs_active (h : Nat) :
    RaisingGCProtector_get_num_protected_objects (protectN raisingFresh (some h) 5) = 1
    ∧ RaisingGCProtector_get_num_active_protections
        (protectN raisingFresh (some h) 5) = 5 := by
  have hform := protectN_fresh_succ h 4
  norm_num at hform
  rw [hform]
  constructor <;> rfl

/-- Claim C10: assigning the very protector instance already installed in
the default slot succeeds immediately and leaves the slot unchanged,
before the busy guard or the instance check is ever consulted, whatever
the current num_active_protections is. -/
theorem C10_reinstall_current_default (current : ProtObj) :
    GCProtectorMeta_set_default current (.protector current) = (current, .ok ()) := by
  simp [GCProtectorMeta_set_default, pyValueInstId]
